import Mathlib

/-!
Shallow embedding of the gameplay core of `main.js` (browser FPS prototype):
resource managers (fire gate, reload state machine), enemy spawner, hitscan
combat resolver, player movement physics with ground clamp, per-enemy AI
step, player damage and the delayed game reset.

Modelling conventions, matching the source:
* Timestamps (`performance.now()` values, milliseconds) are integers.
* Geometry (positions, velocities, terrain) is over the reals.
* Randomness (`Math.random()` draws) is passed in explicitly: each spawned
  enemy consumes one `EnemyRand` record of raw uniform samples.
* Deferred timer callbacks (`setTimeout` bodies) are modelled as separate
  completion functions applied to the state current when the timer fires
  (`reloadComplete` for the reload timer, `resetGame` for the death timer).
* The `THREE.Raycaster` result in `shoot` is passed in as the list of the
  owning-enemy indices of the intersected sub-parts, nearest hit first,
  exactly the order `intersectObjects` returns.
* Rendering, DOM/HUD writes, and the cosmetic flash effects are omitted;
  they read but never write the gameplay state modelled here.
-/

namespace Etheria

/-- Tuning constants, `main.js` lines 40-54. -/
def PLAYER_RADIUS : ℝ := 0.6

def ENEMY_RADIUS : ℝ := 0.8

def ENEMY_MIN_DISTANCE_BUFFER : ℝ := 0.15

def PLAYER_ATTACK_DAMAGE : ℤ := 10

def PLAYER_MOVE_SPEED : ℝ := 25

def PLAYER_SPRINT_SPEED : ℝ := 45

def ENEMY_BASE_SPEED : ℝ := 6

def ENEMY_RANDOM_SPEED : ℝ := 3

def INITIAL_ENEMY_COUNT : ℕ := 30

def MAX_ENEMIES : ℕ := 120

/-- Magazine capacity, `state.maxAmmo` (`main.js` line 31, never mutated). -/
def maxAmmo : ℕ := 30

/-- Fire cooldown in ms, `state.shootCooldown` (`main.js` line 35, never mutated). -/
def shootCooldown : ℤ := 100

/-- Player maximum health, `state.maxHp` (`main.js` line 28, never mutated). -/
def maxHp : ℤ := 100

/-- The ammo/reload/fire-gate slice of the global `state` record
(`main.js` lines 30-34). -/
structure GunState where
  ammo : ℕ
  reserveAmmo : ℕ
  reloading : Bool
  lastShot : ℤ
  deriving DecidableEq

/-- Entry phase of `reload()` (`main.js` lines 621-624): rejected while a
reload is in flight, at a full magazine, or with empty reserve
(`state.reserveAmmo <= 0` is `= 0` for a natural number); otherwise it sets
the `reloading` flag and schedules the completion callback. -/
def reload (g : GunState) : GunState :=
  if g.reloading then g
  else if g.ammo = maxAmmo ∨ g.reserveAmmo = 0 then g
  else { g with reloading := true }

/-- Completion phase of `reload()`, the body of its 800 ms `setTimeout`
(`main.js` lines 625-632), applied to the state current when the timer
fires. -/
def reloadComplete (g : GunState) : GunState :=
  let needed := maxAmmo - g.ammo
  let taken := min needed g.reserveAmmo
  { g with ammo := g.ammo + taken, reserveAmmo := g.reserveAmmo - taken, reloading := false }

/-- 3D vector over the reals, standing in for `THREE.Vector3`. -/
@[ext]
structure Vec3 where
  x : ℝ
  y : ℝ
  z : ℝ

def vadd (a b : Vec3) : Vec3 := ⟨a.x + b.x, a.y + b.y, a.z + b.z⟩

def vsub (a b : Vec3) : Vec3 := ⟨a.x - b.x, a.y - b.y, a.z - b.z⟩

def vsmul (c : ℝ) (v : Vec3) : Vec3 := ⟨c * v.x, c * v.y, c * v.z⟩

/-- `THREE.Vector3.length()`. -/
noncomputable def vlen (v : Vec3) : ℝ := Real.sqrt (v.x ^ 2 + v.y ^ 2 + v.z ^ 2)

/-- `THREE.Vector3.normalize()`: divides by the length; a zero vector stays
zero (the library divides by `length() || 1`, and here `1 / 0 = 0`). -/
noncomputable def vnormalize (v : Vec3) : Vec3 := vsmul (1 / vlen v) v

/-- `getTerrainHeight(x, z)` (`main.js` lines 77-80). -/
noncomputable def getTerrainHeight (x z : ℝ) : ℝ :=
  (Real.sin (x * 0.01) + Real.cos (z * 0.01)) * 10 +
    (Real.sin (x * 0.05) + Real.cos (z * 0.05)) * 2

/-- One enemy record as pushed by `spawnEnemies` (`main.js` lines 332-340);
the scene-graph meshes are rendering state and are omitted. -/
structure Enemy where
  pos : Vec3
  speed : ℝ
  hp : ℤ
  attackCooldown : ℝ
  attackRate : ℝ
  radius : ℝ

/-- The raw `Math.random()` draws consumed when spawning one enemy:
position samples, sign fallbacks and push amounts for the exclusion zone,
and the speed and attack-interval samples. -/
structure EnemyRand where
  rawX : ℝ
  rawZ : ℝ
  signX : Bool
  signZ : Bool
  pushX : ℝ
  pushZ : ℝ
  speedR : ℝ
  attackR : ℝ

/-- Construction of one enemy inside the `spawnEnemies` loop
(`main.js` lines 287-340). Note the source computes the terrain height `y`
from the raw position before the exclusion-zone push, so a pushed enemy
keeps the height of its original sample; `Math.sign(x) || r` is modelled by
the sign of `x0` with the random fallback at `x0 = 0`. -/
noncomputable def mkEnemy (r : EnemyRand) : Enemy :=
  let x0 := (r.rawX - 0.5) * 800
  let z0 := (r.rawZ - 0.5) * 800
  let y := getTerrainHeight x0 z0
  let inZone := |x0| < 50 ∧ |z0| < 50
  let sx : ℝ := if 0 < x0 then 1 else if x0 < 0 then -1 else if r.signX then -1 else 1
  let sz : ℝ := if 0 < z0 then 1 else if z0 < 0 then -1 else if r.signZ then -1 else 1
  let x := if inZone then sx * (50 + r.pushX * 200) else x0
  let z := if inZone then sz * (50 + r.pushZ * 200) else z0
  { pos := ⟨x, y, z⟩
    speed := ENEMY_BASE_SPEED + r.speedR * ENEMY_RANDOM_SPEED
    hp := 100
    attackCooldown := 0
    attackRate := 1 + r.attackR * 0.8
    radius := ENEMY_RADIUS }

/-- `spawnEnemies(count)` (`main.js` lines 282-342), assuming the scene
exists (the `!scene` early return is the pre-init case). `canSpawn` is
`Math.max(0, MAX_ENEMIES - state.enemies.length)`, which is truncated
natural subtraction; the new enemies are pushed onto the end of the live
list. -/
noncomputable def spawnEnemies (rnd : ℕ → EnemyRand) (count : ℕ) (es : List Enemy) :
    List Enemy :=
  let canSpawn := MAX_ENEMIES - es.length
  let toSpawn := min count canSpawn
  es ++ (List.range toSpawn).map (fun i => mkEnemy (rnd i))

/-- Which return path `shoot()` took. -/
inductive ShootAction where
  | blockedCooldown
  | blockedReloading
  | reloadTriggered
  | fired
  deriving DecidableEq

/-- `owner.hp -= 50` (`main.js` line 607). -/
def hitEnemy (e : Enemy) : Enemy := { e with hp := e.hp - 50 }

/-- Hit resolution of an accepted shot (`main.js` lines 599-618): the
raycaster intersections are given as the owning-enemy indices of the hit
sub-parts, nearest first; the walk from `hits[0].object` up the scene graph
to a root in `objs` together with `find(e => e.mesh === root)` resolves the
nearest hit to its unique owning record, modelled as indexing. An index
outside the list is the `owner` lookup failing, which does nothing. -/
def resolveHit (es : List Enemy) (hits : List ℕ) : List Enemy :=
  match hits with
  | [] => es
  | h :: _ =>
    match es[h]? with
    | none => es
    | some e => es.set h (hitEnemy e)

/-- `shoot()` (`main.js` lines 581-619): rate-limit gate, reloading gate,
empty-magazine reload trigger, then the accepted shot (timestamp update,
ammo decrement, hit resolution). -/
def shoot (now : ℤ) (g : GunState) (es : List Enemy) (hits : List ℕ) :
    GunState × List Enemy × ShootAction :=
  if now - g.lastShot < shootCooldown then (g, es, ShootAction.blockedCooldown)
  else if g.reloading then (g, es, ShootAction.blockedReloading)
  else if g.ammo = 0 then (reload g, es, ShootAction.reloadTriggered)
  else ({ g with lastShot := now, ammo := g.ammo - 1 }, resolveHit es hits, ShootAction.fired)

/-- `state.move` (`main.js` line 21). -/
structure MoveIntent where
  fwd : Bool
  bwd : Bool
  left : Bool
  right : Bool
  deriving DecidableEq

/-- The player slice of the global state: position of `playerObj`, the
`velocity`, `direction`, `onGround`, `move` and `sprint` fields. The
`direction` vector keeps a zero `y` component throughout the source, so
only its `x` and `z` components are carried. -/
structure PlayerState where
  pos : Vec3
  vel : Vec3
  dirX : ℝ
  dirZ : ℝ
  onGround : Bool
  move : MoveIntent
  sprint : Bool

/-- `Number(bool)` coercion used for the intent components. -/
def boolToNum (b : Bool) : ℝ := if b then 1 else 0

/-- `updatePlayerMovement(delta)` before the ground clamp
(`main.js` lines 410-432): damping, gravity, normalized intent, speed
selection, then position integration along the camera basis. The camera's
horizontal forward direction `(fx, fz)` is the yaw-only projection computed
on lines 423-427 (an input from the look controls); the right vector is its
cross product with the world up, `(-fz, 0, fx)`. -/
noncomputable def playerStepRaw (delta fx fz : ℝ) (p : PlayerState) : PlayerState :=
  let vx1 := p.vel.x - p.vel.x * 10 * delta
  let vz1 := p.vel.z - p.vel.z * 10 * delta
  let vy1 := p.vel.y - 30 * delta
  let dz0 := boolToNum p.move.fwd - boolToNum p.move.bwd
  let dx0 := boolToNum p.move.right - boolToNum p.move.left
  let lsq := dx0 ^ 2 + dz0 ^ 2
  let dx := if 0 < lsq then dx0 / Real.sqrt lsq else dx0
  let dz := if 0 < lsq then dz0 / Real.sqrt lsq else dz0
  let speed := if p.sprint then PLAYER_SPRINT_SPEED else PLAYER_MOVE_SPEED
  let vz2 := if p.move.fwd || p.move.bwd then vz1 - dz * speed * delta else vz1
  let vx2 := if p.move.left || p.move.right then vx1 - dx * speed * delta else vx1
  let px := p.pos.x + fx * (-vz2 * delta) + -fz * (-vx2 * delta)
  let pz := p.pos.z + fz * (-vz2 * delta) + fx * (-vx2 * delta)
  let py := p.pos.y + vy1 * delta
  { p with pos := ⟨px, py, pz⟩, vel := ⟨vx2, vy1, vz2⟩, dirX := dx, dirZ := dz }

/-- `updatePlayerMovement(delta)` (`main.js` lines 407-442), assuming the
look controls are active (the early return on line 408 is the paused
case): the integration step followed by the ground clamp against
`getTerrainHeight` at the new horizontal coordinates. -/
noncomputable def updatePlayerMovement (delta fx fz : ℝ) (p : PlayerState) : PlayerState :=
  let q := playerStepRaw delta fx fz p
  let groundHeight := getTerrainHeight q.pos.x q.pos.z
  if q.pos.y < groundHeight then
    { q with pos := ⟨q.pos.x, groundHeight, q.pos.z⟩, vel := ⟨q.vel.x, 0, q.vel.z⟩,
             onGround := true }
  else
    { q with onGround := false }

/-- The whole gameplay state: player, camera Euler rotation, health, gun,
kill counter and the live enemy collection. -/
structure GameState where
  player : PlayerState
  cameraRot : Vec3
  hp : ℤ
  gun : GunState
  kills : ℕ
  enemies : List Enemy

/-- Key codes handled by `onKey` (`main.js` lines 394-405). -/
inductive Key where
  | keyW
  | keyS
  | keyA
  | keyD
  | shiftLeft
  | space
  | keyE
  | keyR

/-- `onKey(e, pressed)` (`main.js` lines 394-405). `Space` jumps only while
grounded; `KeyE` toggles the inventory overlay, which holds no gameplay
state; `KeyR` enters the reload state machine. -/
def onKey (k : Key) (pressed : Bool) (s : GameState) : GameState :=
  match k with
  | Key.keyW => { s with player := { s.player with move := { s.player.move with fwd := pressed } } }
  | Key.keyS => { s with player := { s.player with move := { s.player.move with bwd := pressed } } }
  | Key.keyA => { s with player := { s.player with move := { s.player.move with left := pressed } } }
  | Key.keyD => { s with player := { s.player with move := { s.player.move with right := pressed } } }
  | Key.shiftLeft => { s with player := { s.player with sprint := pressed } }
  | Key.space =>
    if pressed && s.player.onGround then
      { s with player := { s.player with vel := ⟨s.player.vel.x, 15, s.player.vel.z⟩ } }
    else s
  | Key.keyE => s
  | Key.keyR => if pressed then { s with gun := reload s.gun } else s

/-- `applyDamageToPlayer(amount)` (`main.js` lines 563-578): health floored
at 0; the boolean reports whether the 2000 ms respawn timer was scheduled
(`state.hp <= 0` after the floor). -/
def applyDamageToPlayer (amount : ℤ) (s : GameState) : GameState × Bool :=
  let hp2 := max 0 (s.hp - amount)
  ({ s with hp := hp2 }, decide (hp2 ≤ 0))

/-- `resetGame()` (`main.js` lines 452-467): player moved to the world
origin slightly above ground height, health restored, enemies cleared and
respawned with a fresh initial batch, velocity zeroed, grounded flag
cleared, camera rotation reset. The wave-timer restart is scheduler state
outside this model. -/
noncomputable def resetGame (rnd : ℕ → EnemyRand) (s : GameState) : GameState :=
  { s with
    player := { s.player with
      pos := ⟨0, getTerrainHeight 0 0 + 0.1, 0⟩
      vel := ⟨0, 0, 0⟩
      onGround := false }
    hp := maxHp
    cameraRot := ⟨0, 0, 0⟩
    enemies := spawnEnemies rnd INITIAL_ENEMY_COUNT [] }

/-- The pursuit/attack body of the per-enemy loop in `updateEnemies`
(`main.js` lines 508-546): cooldown decay floored at 0, then either the
straight-line chase (out of melee range) or the melee reposition (guarded
by `dist > 0.001`) and the attack check. The second component is the
damage dealt to the player this step. The pairwise separation pass and the
death sweep are separate phases of `updateEnemies` not modelled here. -/
noncomputable def enemyAIStep (delta : ℝ) (playerPos : Vec3) (e : Enemy) : Enemy × ℤ :=
  let cd := max 0 (e.attackCooldown - delta)
  let dir := vsub playerPos e.pos
  let dist := vlen dir
  let minDist := (if e.radius = 0 then ENEMY_RADIUS else e.radius) +
    PLAYER_RADIUS + ENEMY_MIN_DISTANCE_BUFFER
  if minDist < dist then
    ({ e with pos := vadd e.pos (vsmul (e.speed * delta) (vnormalize dir)),
              attackCooldown := cd }, 0)
  else
    let pos2 := if 0.001 < dist then vadd playerPos (vsmul (-minDist) (vnormalize dir))
      else e.pos
    if cd ≤ 0 then
      ({ e with pos := pos2, attackCooldown := e.attackRate }, PLAYER_ATTACK_DAMAGE)
    else
      ({ e with pos := pos2, attackCooldown := cd }, 0)

/-- The initial gun state (`main.js` lines 30-34). -/
def initialGun : GunState := { ammo := 30, reserveAmmo := 90, reloading := false, lastShot := 0 }

/-- The initial gameplay state (`main.js` lines 20-37), before the initial
spawn. -/
def initialState : GameState :=
  { player := { pos := ⟨0, 0, 0⟩, vel := ⟨0, 0, 0⟩, dirX := 0, dirZ := 0, onGround := false,
                move := ⟨false, false, false, false⟩, sprint := false }
    cameraRot := ⟨0, 0, 0⟩
    hp := 100
    gun := initialGun
    kills := 0
    enemies := [] }

/-- A fixed random draw, used for concrete instances. -/
def rnd0 : ℕ → EnemyRand := fun _ => ⟨0, 0, false, false, 0, 0, 0, 0⟩

/-- A concrete enemy record, used for concrete instances. -/
noncomputable def enemy0 : Enemy := mkEnemy (rnd0 0)

/-- The number of live enemies after a spawn call. -/
theorem spawnEnemies_length (rnd : ℕ → EnemyRand) (count : ℕ) (es : List Enemy) :
    (spawnEnemies rnd count es).length = es.length + min count (MAX_ENEMIES - es.length) := by
  simp [spawnEnemies]

/-- Claim C1: every `spawnEnemies(count)` call with `n` live enemies adds
exactly `min count (120 - n)` new enemies (`0` once `n ≥ 120`, by the
truncated subtraction), hence any sequence of spawn calls keeps the live
count at or below 120; in particular a call with count 6 at 118 live
enemies adds exactly 2. -/
theorem spawnEnemies_cap :
    (∀ (rnd : ℕ → EnemyRand) (count : ℕ) (es : List Enemy),
      (spawnEnemies rnd count es).length = es.length + min count (MAX_ENEMIES - es.length)) ∧
    (∀ (calls : List (ℕ × (ℕ → EnemyRand))) (es : List Enemy),
      es.length ≤ MAX_ENEMIES →
      (calls.foldl (fun acc c => spawnEnemies c.2 c.1 acc) es).length ≤ MAX_ENEMIES) ∧
    (∀ (rnd : ℕ → EnemyRand) (es : List Enemy), es.length = 118 →
      (spawnEnemies rnd 6 es).length = es.length + 2) := by
  refine ⟨spawnEnemies_length, ?_, ?_⟩
  · intro calls
    induction calls with
    | nil => intro es h; simpa using h
    | cons c cs ih =>
      intro es h
      simp only [List.foldl_cons]
      apply ih
      rw [spawnEnemies_length]
      omega
  · intro rnd es h
    have hM : MAX_ENEMIES = 120 := rfl
    rw [spawnEnemies_length]
    omega

/-- Claim C1 witness: concrete spawn calls at the cap boundary. -/
theorem spawnEnemies_cap_witness :
    (spawnEnemies rnd0 6 (List.replicate 118 enemy0)).length =
      (List.replicate 118 enemy0).length + 2 ∧
    ([((6 : ℕ), rnd0)].foldl (fun acc c => spawnEnemies c.2 c.1 acc)
      (List.replicate 118 enemy0)).length ≤ MAX_ENEMIES := by
  constructor
  · exact spawnEnemies_cap.2.2 rnd0 _ (by simp)
  · exact spawnEnemies_cap.2.1 _ _ (by norm_num [MAX_ENEMIES])

/-- An accepted shot, written out. -/
theorem shoot_fired_eq (now : ℤ) (g : GunState) (es : List Enemy) (hits : List ℕ)
    (h1 : ¬(now - g.lastShot < shootCooldown)) (h2 : g.reloading = false)
    (h3 : g.ammo ≠ 0) :
    shoot now g es hits =
      ({ g with lastShot := now, ammo := g.ammo - 1 }, resolveHit es hits,
        ShootAction.fired) := by
  unfold shoot
  rw [if_neg h1, if_neg (by simp [h2]), if_neg h3]

/-- The gate conditions recovered from an accepted shot. -/
theorem shoot_fired_conditions (now : ℤ) (g : GunState) (es : List Enemy) (hits : List ℕ)
    (hf : (shoot now g es hits).2.2 = ShootAction.fired) :
    ¬(now - g.lastShot < shootCooldown) ∧ g.reloading = false ∧ g.ammo ≠ 0 := by
  unfold shoot at hf
  split_ifs at hf with h1 h2 h3
  exact ⟨h1, by simpa using h2, h3⟩

/-- Claim C3: a fire request is accepted iff the 100 ms cooldown has
elapsed, the reloading flag is clear and ammo is positive; acceptance
decrements ammo and stamps `lastShot` with `now`; a request passing the
first two gates with an empty magazine enters the reload state machine
instead; a second call 50 ms after an accepted shot changes nothing and is
rejected by the cooldown gate. -/
theorem shoot_gate :
    (∀ (now : ℤ) (g : GunState) (es : List Enemy) (hits : List ℕ),
      (shoot now g es hits).2.2 = ShootAction.fired ↔
        (shootCooldown ≤ now - g.lastShot ∧ g.reloading = false ∧ 0 < g.ammo)) ∧
    (∀ (now : ℤ) (g : GunState) (es : List Enemy) (hits : List ℕ),
      (shoot now g es hits).2.2 = ShootAction.fired →
        (shoot now g es hits).1.ammo = g.ammo - 1 ∧
        (shoot now g es hits).1.lastShot = now ∧
        (shoot now g es hits).1.reserveAmmo = g.reserveAmmo ∧
        (shoot now g es hits).1.reloading = g.reloading) ∧
    (∀ (now : ℤ) (g : GunState) (es : List Enemy) (hits : List ℕ),
      shootCooldown ≤ now - g.lastShot → g.reloading = false → g.ammo = 0 →
        (shoot now g es hits).2.2 = ShootAction.reloadTriggered ∧
        (shoot now g es hits).1 = reload g ∧ (shoot now g es hits).2.1 = es) ∧
    (∀ (now : ℤ) (g : GunState) (es : List Enemy) (hits hits2 : List ℕ),
      (shoot now g es hits).2.2 = ShootAction.fired →
        shoot (now + 50) (shoot now g es hits).1 (shoot now g es hits).2.1 hits2 =
          ((shoot now g es hits).1, (shoot now g es hits).2.1,
            ShootAction.blockedCooldown)) := by
  refine ⟨?_, ?_, ?_, ?_⟩
  · intro now g es hits
    unfold shoot
    split_ifs with h1 h2 h3
    · exact iff_of_false (by simp) (by rintro ⟨hc, -, -⟩; omega)
    · exact iff_of_false (by simp) (by rintro ⟨-, hr, -⟩; simp [hr] at h2)
    · exact iff_of_false (by simp) (by rintro ⟨-, -, ha⟩; omega)
    · exact iff_of_true rfl ⟨by omega, by simpa using h2, by omega⟩
  · intro now g es hits hf
    obtain ⟨h1, h2, h3⟩ := shoot_fired_conditions now g es hits hf
    rw [shoot_fired_eq now g es hits h1 h2 h3]
    exact ⟨rfl, rfl, rfl, rfl⟩
  · intro now g es hits hc hr ha
    unfold shoot
    rw [if_neg (by omega), if_neg (by simp [hr]), if_pos ha]
    exact ⟨rfl, rfl, rfl⟩
  · intro now g es hits hits2 hf
    obtain ⟨h1, h2, h3⟩ := shoot_fired_conditions now g es hits hf
    rw [shoot_fired_eq now g es hits h1 h2 h3]
    have hS : shootCooldown = 100 := rfl
    unfold shoot
    rw [if_pos (by simp only [GunState.mk.injEq]; omega)]

/-- Claim C3 witness: a concrete accepted shot, empty-magazine reload
trigger, and a rejected follow-up 50 ms later. -/
theorem shoot_gate_witness :
    (shoot 100 initialGun [] []).1.ammo = initialGun.ammo - 1 ∧
    (shoot 100 initialGun [] []).1.lastShot = 100 ∧
    (shoot 100 ⟨0, 90, false, 0⟩ [] []).2.2 = ShootAction.reloadTriggered ∧
    shoot 150 (shoot 100 initialGun [] []).1 ((shoot 100 initialGun [] []).2.1) [] =
      ((shoot 100 initialGun [] []).1, (shoot 100 initialGun [] []).2.1,
        ShootAction.blockedCooldown) := by
  have hfired : (shoot 100 initialGun ([] : List Enemy) ([] : List ℕ)).2.2 =
      ShootAction.fired := rfl
  refine ⟨(shoot_gate.2.1 100 initialGun [] [] hfired).1,
    (shoot_gate.2.1 100 initialGun [] [] hfired).2.1,
    (shoot_gate.2.2.1 100 ⟨0, 90, false, 0⟩ [] [] (by decide) rfl rfl).1, ?_⟩
  have h := shoot_gate.2.2.2 100 initialGun [] [] [] hfired
  simpa using h

/-- Claim C9: the rate-limit and reloading gates precede the empty-magazine
check: a fire request with an empty magazine made inside the cooldown
window, or while the reloading flag is set, returns with all state
unchanged and without triggering a reload. -/
theorem shoot_gate_order :
    (∀ (now : ℤ) (g : GunState) (es : List Enemy) (hits : List ℕ),
      now - g.lastShot < shootCooldown → g.ammo = 0 →
        (shoot now g es hits).1 = g ∧ (shoot now g es hits).2.1 = es ∧
        (shoot now g es hits).2.2 = ShootAction.blockedCooldown) ∧
    (∀ (now : ℤ) (g : GunState) (es : List Enemy) (hits : List ℕ),
      shootCooldown ≤ now - g.lastShot → g.reloading = true → g.ammo = 0 →
        (shoot now g es hits).1 = g ∧ (shoot now g es hits).2.1 = es ∧
        (shoot now g es hits).2.2 = ShootAction.blockedReloading) := by
  constructor
  · intro now g es hits h1 _
    unfold shoot
    rw [if_pos h1]
    exact ⟨rfl, rfl, rfl⟩
  · intro now g es hits h1 h2 _
    unfold shoot
    rw [if_neg (by omega), if_pos h2]
    exact ⟨rfl, rfl, rfl⟩

/-- Claim C9 witness: concrete empty-magazine requests rejected by each of
the two earlier gates. -/
theorem shoot_gate_order_witness :
    (shoot 50 ⟨0, 90, false, 0⟩ [] []).1 = ⟨0, 90, false, 0⟩ ∧
    (shoot 50 ⟨0, 90, false, 0⟩ [] []).2.2 = ShootAction.blockedCooldown ∧
    (shoot 200 ⟨0, 90, true, 0⟩ [] []).1 = ⟨0, 90, true, 0⟩ ∧
    (shoot 200 ⟨0, 90, true, 0⟩ [] []).2.2 = ShootAction.blockedReloading := by
  refine ⟨(shoot_gate_order.1 50 ⟨0, 90, false, 0⟩ [] [] (by decide) rfl).1,
    (shoot_gate_order.1 50 ⟨0, 90, false, 0⟩ [] [] (by decide) rfl).2.2,
    (shoot_gate_order.2 200 ⟨0, 90, true, 0⟩ [] [] (by decide) rfl rfl).1,
    (shoot_gate_order.2 200 ⟨0, 90, true, 0⟩ [] [] (by decide) rfl rfl).2.2⟩

/-- Claim C4: reload entry is a no-op while already reloading, at a full
magazine (30), or with zero reserve; otherwise it only sets the reloading
flag, and the completion callback transfers `min (30 - ammo) reserve`
rounds from reserve to magazine, conserving `ammo + reserve`, keeping
`ammo ≤ 30`, and clearing the flag. -/
theorem reload_state_machine :
    (∀ g : GunState, g.reloading = true → reload g = g) ∧
    (∀ g : GunState, g.ammo = maxAmmo → reload g = g) ∧
    (∀ g : GunState, g.reserveAmmo = 0 → reload g = g) ∧
    (∀ g : GunState, g.reloading = false → g.ammo ≠ maxAmmo → g.reserveAmmo ≠ 0 →
      reload g = { g with reloading := true }) ∧
    (∀ g : GunState,
      (reloadComplete g).ammo = g.ammo + min (maxAmmo - g.ammo) g.reserveAmmo ∧
      (reloadComplete g).reserveAmmo = g.reserveAmmo - min (maxAmmo - g.ammo) g.reserveAmmo ∧
      (reloadComplete g).ammo + (reloadComplete g).reserveAmmo = g.ammo + g.reserveAmmo ∧
      (reloadComplete g).reloading = false ∧
      (g.ammo ≤ maxAmmo → (reloadComplete g).ammo ≤ maxAmmo)) := by
  refine ⟨?_, ?_, ?_, ?_, ?_⟩
  · intro g h; simp [reload, h]
  · intro g h; simp [reload, h]
  · intro g h; simp [reload, h]
  · intro g h1 h2 h3; simp [reload, h1, h2, h3]
  · intro g
    refine ⟨rfl, rfl, ?_, rfl, ?_⟩
    · simp only [reloadComplete]
      omega
    · intro h
      simp only [reloadComplete]
      omega

/-- Claim C4 witness: the three concrete no-op cases, a concrete accepted
entry, and a concrete completion keeping the magazine at or below
capacity. -/
theorem reload_state_machine_witness :
    reload ⟨10, 90, true, 0⟩ = ⟨10, 90, true, 0⟩ ∧
    reload ⟨30, 90, false, 0⟩ = ⟨30, 90, false, 0⟩ ∧
    reload ⟨10, 0, false, 0⟩ = ⟨10, 0, false, 0⟩ ∧
    reload ⟨10, 90, false, 0⟩ = ⟨10, 90, true, 0⟩ ∧
    (reloadComplete ⟨10, 90, true, 0⟩).ammo ≤ maxAmmo := by
  refine ⟨reload_state_machine.1 _ rfl, reload_state_machine.2.1 _ rfl,
    reload_state_machine.2.2.1 _ rfl,
    reload_state_machine.2.2.2.1 ⟨10, 90, false, 0⟩ rfl (by decide) (by decide),
    (reload_state_machine.2.2.2.2 ⟨10, 90, true, 0⟩).2.2.2.2 (by decide)⟩

/-- Claim C10: the game reset leaves the kill counter and the whole gun
state (ammo, reserve, reloading flag, last-shot timestamp) unchanged —
kills accumulate across deaths and the magazine is not refilled — and
rewrites only player position, health, velocity, grounded flag, camera
rotation and the enemy collection. -/
theorem resetGame_frame :
    ∀ (rnd : ℕ → EnemyRand) (s : GameState),
      (resetGame rnd s).kills = s.kills ∧
      (resetGame rnd s).gun.ammo = s.gun.ammo ∧
      (resetGame rnd s).gun.reserveAmmo = s.gun.reserveAmmo ∧
      (resetGame rnd s).gun.reloading = s.gun.reloading ∧
      (resetGame rnd s).gun.lastShot = s.gun.lastShot ∧
      (resetGame rnd s).gun = s.gun ∧
      (resetGame rnd s).player.move = s.player.move ∧
      (resetGame rnd s).player.sprint = s.player.sprint ∧
      (resetGame rnd s).player.dirX = s.player.dirX ∧
      (resetGame rnd s).player.dirZ = s.player.dirZ ∧
      (resetGame rnd s).player.pos = ⟨0, getTerrainHeight 0 0 + 0.1, 0⟩ ∧
      (resetGame rnd s).hp = maxHp ∧
      (resetGame rnd s).player.vel = ⟨0, 0, 0⟩ ∧
      (resetGame rnd s).player.onGround = false ∧
      (resetGame rnd s).cameraRot = ⟨0, 0, 0⟩ ∧
      (resetGame rnd s).enemies = spawnEnemies rnd INITIAL_ENEMY_COUNT [] :=
  fun _ _ => ⟨rfl, rfl, rfl, rfl, rfl, rfl, rfl, rfl, rfl, rfl, rfl, rfl, rfl, rfl, rfl, rfl⟩

/-- Claim C2: on an accepted shot, if the ray intersected at least one live
enemy sub-part then exactly one enemy — the owner of the nearest
intersected sub-part — loses exactly 50 health while every other enemy
record is unchanged; with no intersection the enemy list is unchanged. -/
theorem shoot_hit_unique :
    ∀ (now : ℤ) (g : GunState) (es : List Enemy) (hits : List ℕ),
      (shoot now g es hits).2.2 = ShootAction.fired →
      ((∀ h rest, hits = h :: rest → ∀ hh : h < es.length,
        ((shoot now g es hits).2.1).length = es.length ∧
        ((shoot now g es hits).2.1)[h]? = some (hitEnemy (es.get ⟨h, hh⟩)) ∧
        (hitEnemy (es.get ⟨h, hh⟩)).hp = (es.get ⟨h, hh⟩).hp - 50 ∧
        (∀ j, j ≠ h → ((shoot now g es hits).2.1)[j]? = es[j]?)) ∧
      (hits = [] → (shoot now g es hits).2.1 = es)) := by
  intro now g es hits hf
  obtain ⟨h1, h2, h3⟩ := shoot_fired_conditions now g es hits hf
  rw [shoot_fired_eq now g es hits h1 h2 h3]
  constructor
  · rintro h rest rfl hh
    have hel : es[h]? = some es[h] := List.getElem?_eq_getElem hh
    simp only [resolveHit, hel]
    refine ⟨by simp, ?_, rfl, ?_⟩
    · simp [List.getElem?_set_self', hel, List.get_eq_getElem]
    · intro j hj
      exact List.getElem?_set_ne (Ne.symm hj)
  · rintro rfl
    rfl

/-- Claim C2 witness: a concrete accepted shot whose nearest intersection
is owned by the first of two enemies, and a concrete miss. -/
theorem shoot_hit_unique_witness :
    ((shoot 100 initialGun [enemy0, enemy0] [0]).2.1)[0]? =
      some (hitEnemy ([enemy0, enemy0].get ⟨0, by simp⟩)) ∧
    ((shoot 100 initialGun [enemy0, enemy0] [0]).2.1)[1]? = [enemy0, enemy0][1]? ∧
    (shoot 100 initialGun [enemy0, enemy0] []).2.1 = [enemy0, enemy0] := by
  have hfired : (shoot 100 initialGun [enemy0, enemy0] [(0 : ℕ)]).2.2 =
      ShootAction.fired := rfl
  have hfired2 : (shoot 100 initialGun [enemy0, enemy0] ([] : List ℕ)).2.2 =
      ShootAction.fired := rfl
  have h := (shoot_hit_unique 100 initialGun [enemy0, enemy0] [0] hfired).1 0 [] rfl (by simp)
  exact ⟨h.2.1, h.2.2.2 1 (by norm_num),
    (shoot_hit_unique 100 initialGun [enemy0, enemy0] [] hfired2).2 rfl⟩

/-- The ground clamp never touches the horizontal x velocity. -/
theorem updatePlayerMovement_vel_x (delta fx fz : ℝ) (p : PlayerState) :
    (updatePlayerMovement delta fx fz p).vel.x = (playerStepRaw delta fx fz p).vel.x := by
  simp only [updatePlayerMovement]
  split <;> rfl

/-- The ground clamp never touches the horizontal z velocity. -/
theorem updatePlayerMovement_vel_z (delta fx fz : ℝ) (p : PlayerState) :
    (updatePlayerMovement delta fx fz p).vel.z = (playerStepRaw delta fx fz p).vel.z := by
  simp only [updatePlayerMovement]
  split <;> rfl

/-- With zero movement intent the tick only damps the horizontal
velocity. -/
theorem playerStepRaw_vel_no_intent (delta fx fz : ℝ) (p : PlayerState)
    (hm : p.move = ⟨false, false, false, false⟩) :
    (playerStepRaw delta fx fz p).vel.x = p.vel.x - p.vel.x * 10 * delta ∧
    (playerStepRaw delta fx fz p).vel.z = p.vel.z - p.vel.z * 10 * delta := by
  simp [playerStepRaw, hm, boolToNum]

/-- Concrete player state for the damping counterexample. -/
def pC5 : PlayerState :=
  { pos := ⟨0, 0, 0⟩, vel := ⟨1, 0, 0⟩, dirX := 0, dirZ := 0, onGround := false,
    move := ⟨false, false, false, false⟩, sprint := false }

/-- Claim C5 counterexample: the frame loop passes the raw elapsed time,
and a 200 ms frame (Δt = 1/5 s, produced whenever a frame takes 200 ms)
flips the sign of a positive x velocity under zero intent, because the
damping factor 1 − 10·Δt is negative. -/
theorem damping_sign_flip_counterexample :
    (0 : ℝ) ≤ 1 / 5 ∧ 0 < pC5.vel.x ∧
      (updatePlayerMovement (1 / 5) 0 (-1) pC5).vel.x < 0 := by
  refine ⟨by norm_num, by norm_num [pC5], ?_⟩
  rw [updatePlayerMovement_vel_x, (playerStepRaw_vel_no_intent (1 / 5) 0 (-1) pC5 rfl).1]
  norm_num [pC5]

/-- Claim C5 amended: for Δt in [0, 0.1] — where the damping factor
1 − 10·Δt stays in [0, 1] — a zero-intent movement tick takes each
horizontal velocity component toward zero with no sign flip: the updated
component keeps the sign of the previous one and is no larger in
magnitude. For frame Δt above 0.1 s the code violates the claim. -/
theorem damping_monotone :
    ∀ (delta fx fz : ℝ) (p : PlayerState), 0 ≤ delta → delta ≤ 1 / 10 →
      p.move = ⟨false, false, false, false⟩ →
      ((0 ≤ p.vel.x → 0 ≤ (updatePlayerMovement delta fx fz p).vel.x) ∧
       (p.vel.x ≤ 0 → (updatePlayerMovement delta fx fz p).vel.x ≤ 0) ∧
       |(updatePlayerMovement delta fx fz p).vel.x| ≤ |p.vel.x| ∧
       (0 ≤ p.vel.z → 0 ≤ (updatePlayerMovement delta fx fz p).vel.z) ∧
       (p.vel.z ≤ 0 → (updatePlayerMovement delta fx fz p).vel.z ≤ 0) ∧
       |(updatePlayerMovement delta fx fz p).vel.z| ≤ |p.vel.z|) := by
  intro delta fx fz p h0 h1 hm
  have hfac0 : 0 ≤ 1 - 10 * delta := by linarith
  have hfac1 : 1 - 10 * delta ≤ 1 := by linarith
  have hx : (updatePlayerMovement delta fx fz p).vel.x = p.vel.x * (1 - 10 * delta) := by
    rw [updatePlayerMovement_vel_x, (playerStepRaw_vel_no_intent delta fx fz p hm).1]
    ring
  have hz : (updatePlayerMovement delta fx fz p).vel.z = p.vel.z * (1 - 10 * delta) := by
    rw [updatePlayerMovement_vel_z, (playerStepRaw_vel_no_intent delta fx fz p hm).2]
    ring
  have habs : |1 - 10 * delta| ≤ 1 := by
    rw [abs_of_nonneg hfac0]
    exact hfac1
  refine ⟨?_, ?_, ?_, ?_, ?_, ?_⟩
  · intro hv
    rw [hx]
    exact mul_nonneg hv hfac0
  · intro hv
    rw [hx]
    exact mul_nonpos_iff.mpr (Or.inr ⟨hv, hfac0⟩)
  · rw [hx, abs_mul]
    calc |p.vel.x| * |1 - 10 * delta| ≤ |p.vel.x| * 1 :=
          mul_le_mul_of_nonneg_left habs (abs_nonneg _)
      _ = |p.vel.x| := mul_one _
  · intro hv
    rw [hz]
    exact mul_nonneg hv hfac0
  · intro hv
    rw [hz]
    exact mul_nonpos_iff.mpr (Or.inr ⟨hv, hfac0⟩)
  · rw [hz, abs_mul]
    calc |p.vel.z| * |1 - 10 * delta| ≤ |p.vel.z| * 1 :=
          mul_le_mul_of_nonneg_left habs (abs_nonneg _)
      _ = |p.vel.z| := mul_one _

/-- Concrete player state for the damping witness. -/
def pC5w : PlayerState :=
  { pos := ⟨0, 0, 0⟩, vel := ⟨2, 0, -4⟩, dirX := 0, dirZ := 0, onGround := false,
    move := ⟨false, false, false, false⟩, sprint := false }

/-- Claim C5 witness: a 50 ms tick on a concrete moving state. -/
theorem damping_monotone_witness :
    0 ≤ (updatePlayerMovement (1 / 20) 0 (-1) pC5w).vel.x ∧
    (updatePlayerMovement (1 / 20) 0 (-1) pC5w).vel.z ≤ 0 ∧
    |(updatePlayerMovement (1 / 20) 0 (-1) pC5w).vel.x| ≤ |pC5w.vel.x| := by
  have h := damping_monotone (1 / 20) 0 (-1) pC5w (by norm_num) (by norm_num) rfl
  exact ⟨h.1 (by norm_num [pC5w]), h.2.2.2.2.1 (by norm_num [pC5w]), h.2.2.1⟩

/-- The terrain height at the world origin. -/
theorem getTerrainHeight_zero_zero : getTerrainHeight 0 0 = 12 := by
  simp [getTerrainHeight]
  norm_num

/-- A tick from zero horizontal velocity and zero intent keeps the
horizontal position and integrates gravity vertically. -/
theorem playerStepRaw_vertical (delta fx fz : ℝ) (p : PlayerState)
    (hm : p.move = ⟨false, false, false, false⟩) (hvx : p.vel.x = 0) (hvz : p.vel.z = 0) :
    (playerStepRaw delta fx fz p).pos.x = p.pos.x ∧
    (playerStepRaw delta fx fz p).pos.z = p.pos.z ∧
    (playerStepRaw delta fx fz p).pos.y = p.pos.y + (p.vel.y - 30 * delta) * delta := by
  simp [playerStepRaw, hm, hvx, hvz, boolToNum]

/-- Concrete grounded game state at the world origin (terrain height 12). -/
def sJump : GameState :=
  { player := { pos := ⟨0, 12, 0⟩, vel := ⟨0, 0, 0⟩, dirX := 0, dirZ := 0, onGround := true,
                move := ⟨false, false, false, false⟩, sprint := false }
    cameraRot := ⟨0, 0, 0⟩
    hp := 100
    gun := initialGun
    kills := 0
    enemies := [] }

/-- Claim C6 counterexample: jumping while grounded at the origin does set
vertical velocity to 15, but the next tick with an unclamped frame Δt of
1 s integrates the jump to below ground again, so the grounded flag is
still true after that tick — the claim says it becomes false. -/
theorem ground_clamp_counterexample :
    sJump.player.onGround = true ∧
    sJump.player.pos.y = getTerrainHeight sJump.player.pos.x sJump.player.pos.z ∧
    (onKey Key.space true sJump).player.vel.y = 15 ∧
    (updatePlayerMovement 1 0 (-1) (onKey Key.space true sJump).player).onGround = true := by
  refine ⟨rfl, ?_, rfl, ?_⟩
  · show (12 : ℝ) = getTerrainHeight 0 0
    rw [getTerrainHeight_zero_zero]
  · show (updatePlayerMovement 1 0 (-1)
      { pos := ⟨0, 12, 0⟩, vel := ⟨0, 15, 0⟩, dirX := 0, dirZ := 0, onGround := true,
        move := ⟨false, false, false, false⟩, sprint := false }).onGround = true
    obtain ⟨hpx, hpz, hpy⟩ := playerStepRaw_vertical 1 0 (-1)
      { pos := ⟨0, 12, 0⟩, vel := ⟨0, 15, 0⟩, dirX := 0, dirZ := 0, onGround := true,
        move := ⟨false, false, false, false⟩, sprint := false } rfl rfl rfl
    have hcond : (playerStepRaw 1 0 (-1)
        { pos := ⟨0, 12, 0⟩, vel := ⟨0, 15, 0⟩, dirX := 0, dirZ := 0, onGround := true,
          move := ⟨false, false, false, false⟩, sprint := false }).pos.y <
        getTerrainHeight
          (playerStepRaw 1 0 (-1)
            { pos := ⟨0, 12, 0⟩, vel := ⟨0, 15, 0⟩, dirX := 0, dirZ := 0, onGround := true,
              move := ⟨false, false, false, false⟩, sprint := false }).pos.x
          (playerStepRaw 1 0 (-1)
            { pos := ⟨0, 12, 0⟩, vel := ⟨0, 15, 0⟩, dirX := 0, dirZ := 0, onGround := true,
              move := ⟨false, false, false, false⟩, sprint := false }).pos.z := by
      rw [hpx, hpz, hpy]
      show (12 : ℝ) + (15 - 30 * 1) * 1 < getTerrainHeight 0 0
      rw [getTerrainHeight_zero_zero]
      norm_num
    simp only [updatePlayerMovement]
    rw [if_pos hcond]

/-- Claim C6 amended: after a movement tick, if the integrated position
fell below the terrain height at the new horizontal coordinates then the
position y snaps exactly to that height, vertical velocity is zeroed and
the grounded flag is set; otherwise the grounded flag is cleared and
position and velocity are left as integrated. A jump request while
grounded sets vertical velocity to 15 and changes nothing else; a jump
request while airborne changes nothing. Grounded becomes false on the
next tick provided that tick is shorter than 0.5 s (so the jump impulse
outruns gravity) and the player is horizontally at rest on the terrain;
the unclamped frame Δt of the loop breaks the unconditional claim. -/
theorem ground_clamp_jump :
    (∀ (delta fx fz : ℝ) (p : PlayerState),
      (playerStepRaw delta fx fz p).pos.y <
          getTerrainHeight (playerStepRaw delta fx fz p).pos.x
            (playerStepRaw delta fx fz p).pos.z →
        (updatePlayerMovement delta fx fz p).pos.y =
          getTerrainHeight (playerStepRaw delta fx fz p).pos.x
            (playerStepRaw delta fx fz p).pos.z ∧
        (updatePlayerMovement delta fx fz p).vel.y = 0 ∧
        (updatePlayerMovement delta fx fz p).onGround = true ∧
        (updatePlayerMovement delta fx fz p).pos.x = (playerStepRaw delta fx fz p).pos.x ∧
        (updatePlayerMovement delta fx fz p).pos.z = (playerStepRaw delta fx fz p).pos.z) ∧
    (∀ (delta fx fz : ℝ) (p : PlayerState),
      getTerrainHeight (playerStepRaw delta fx fz p).pos.x
          (playerStepRaw delta fx fz p).pos.z ≤ (playerStepRaw delta fx fz p).pos.y →
        (updatePlayerMovement delta fx fz p).onGround = false ∧
        (updatePlayerMovement delta fx fz p).pos = (playerStepRaw delta fx fz p).pos ∧
        (updatePlayerMovement delta fx fz p).vel = (playerStepRaw delta fx fz p).vel) ∧
    (∀ s : GameState, s.player.onGround = true →
      (onKey Key.space true s).player.vel.y = 15 ∧
      (onKey Key.space true s).player.vel.x = s.player.vel.x ∧
      (onKey Key.space true s).player.vel.z = s.player.vel.z ∧
      (onKey Key.space true s).player.pos = s.player.pos) ∧
    (∀ s : GameState, s.player.onGround = false → onKey Key.space true s = s) ∧
    (∀ (delta fx fz : ℝ) (s : GameState), 0 < delta → delta < 1 / 2 →
      s.player.onGround = true →
      s.player.pos.y = getTerrainHeight s.player.pos.x s.player.pos.z →
      s.player.vel.x = 0 → s.player.vel.z = 0 →
      s.player.move = ⟨false, false, false, false⟩ →
      (onKey Key.space true s).player.vel.y = 15 ∧
      (updatePlayerMovement delta fx fz (onKey Key.space true s).player).onGround = false) := by
  refine ⟨?_, ?_, ?_, ?_, ?_⟩
  · intro delta fx fz p hlt
    simp only [updatePlayerMovement]
    rw [if_pos hlt]
    exact ⟨rfl, rfl, rfl, rfl, rfl⟩
  · intro delta fx fz p hle
    simp only [updatePlayerMovement]
    rw [if_neg (not_lt.mpr hle)]
    exact ⟨rfl, rfl, rfl⟩
  · intro s hg
    have hjump : (onKey Key.space true s).player =
        { s.player with vel := ⟨s.player.vel.x, 15, s.player.vel.z⟩ } := by
      simp only [onKey]
      rw [if_pos (by simp [hg] : (true && s.player.onGround) = true)]
    rw [hjump]
    exact ⟨rfl, rfl, rfl, rfl⟩
  · intro s hg
    simp only [onKey]
    rw [if_neg (by simp [hg] : ¬((true && s.player.onGround) = true))]
  · intro delta fx fz s hd0 hd2 hg hy hvx hvz hm
    have hjump : (onKey Key.space true s).player =
        { s.player with vel := ⟨s.player.vel.x, 15, s.player.vel.z⟩ } := by
      simp only [onKey]
      rw [if_pos (by simp [hg] : (true && s.player.onGround) = true)]
    refine ⟨by rw [hjump], ?_⟩
    rw [hjump]
    obtain ⟨hpx, hpz, hpy⟩ := playerStepRaw_vertical delta fx fz
      { s.player with vel := ⟨s.player.vel.x, 15, s.player.vel.z⟩ } hm hvx hvz
    have hcond : ¬((playerStepRaw delta fx fz
        { s.player with vel := ⟨s.player.vel.x, 15, s.player.vel.z⟩ }).pos.y <
        getTerrainHeight
          (playerStepRaw delta fx fz
            { s.player with vel := ⟨s.player.vel.x, 15, s.player.vel.z⟩ }).pos.x
          (playerStepRaw delta fx fz
            { s.player with vel := ⟨s.player.vel.x, 15, s.player.vel.z⟩ }).pos.z) := by
      rw [hpx, hpz, hpy]
      show ¬(s.player.pos.y + (15 - 30 * delta) * delta <
        getTerrainHeight s.player.pos.x s.player.pos.z)
      rw [← hy]
      intro hcon
      nlinarith [mul_pos (show (0 : ℝ) < 15 - 30 * delta by linarith) hd0]
    simp only [updatePlayerMovement]
    rw [if_neg hcond]

/-- Concrete falling player above the origin. -/
def pFall : PlayerState :=
  { pos := ⟨0, 12, 0⟩, vel := ⟨0, -100, 0⟩, dirX := 0, dirZ := 0, onGround := false,
    move := ⟨false, false, false, false⟩, sprint := false }

/-- Concrete rising player above the origin. -/
def pRise : PlayerState :=
  { pos := ⟨0, 12, 0⟩, vel := ⟨0, 100, 0⟩, dirX := 0, dirZ := 0, onGround := false,
    move := ⟨false, false, false, false⟩, sprint := false }

/-- Concrete airborne game state. -/
def sAir : GameState :=
  { player := pRise
    cameraRot := ⟨0, 0, 0⟩
    hp := 100
    gun := initialGun
    kills := 0
    enemies := [] }

/-- Claim C6 witness: the concrete clamp-down, stay-airborne, grounded
jump, airborne no-op and small-Δt post-jump cases. -/
theorem ground_clamp_jump_witness :
    (updatePlayerMovement (1 / 10) 0 (-1) pFall).pos.y =
      getTerrainHeight (playerStepRaw (1 / 10) 0 (-1) pFall).pos.x
        (playerStepRaw (1 / 10) 0 (-1) pFall).pos.z ∧
    (updatePlayerMovement (1 / 10) 0 (-1) pFall).onGround = true ∧
    (updatePlayerMovement (1 / 10) 0 (-1) pRise).onGround = false ∧
    (onKey Key.space true sJump).player.vel.y = 15 ∧
    onKey Key.space true sAir = sAir ∧
    (updatePlayerMovement (1 / 10) 0 (-1) (onKey Key.space true sJump).player).onGround =
      false := by
  have hfall : (playerStepRaw (1 / 10) 0 (-1) pFall).pos.y <
      getTerrainHeight (playerStepRaw (1 / 10) 0 (-1) pFall).pos.x
        (playerStepRaw (1 / 10) 0 (-1) pFall).pos.z := by
    obtain ⟨hpx, hpz, hpy⟩ := playerStepRaw_vertical (1 / 10) 0 (-1) pFall rfl rfl rfl
    rw [hpx, hpz, hpy]
    show (12 : ℝ) + (-100 - 30 * (1 / 10)) * (1 / 10) < getTerrainHeight 0 0
    rw [getTerrainHeight_zero_zero]
    norm_num
  have hrise : getTerrainHeight (playerStepRaw (1 / 10) 0 (-1) pRise).pos.x
      (playerStepRaw (1 / 10) 0 (-1) pRise).pos.z ≤
      (playerStepRaw (1 / 10) 0 (-1) pRise).pos.y := by
    obtain ⟨hpx, hpz, hpy⟩ := playerStepRaw_vertical (1 / 10) 0 (-1) pRise rfl rfl rfl
    rw [hpx, hpz, hpy]
    show getTerrainHeight 0 0 ≤ (12 : ℝ) + (100 - 30 * (1 / 10)) * (1 / 10)
    rw [getTerrainHeight_zero_zero]
    norm_num
  have hy12 : sJump.player.pos.y = getTerrainHeight sJump.player.pos.x sJump.player.pos.z := by
    show (12 : ℝ) = getTerrainHeight 0 0
    rw [getTerrainHeight_zero_zero]
  refine ⟨(ground_clamp_jump.1 (1 / 10) 0 (-1) pFall hfall).1,
    (ground_clamp_jump.1 (1 / 10) 0 (-1) pFall hfall).2.2.1,
    (ground_clamp_jump.2.1 (1 / 10) 0 (-1) pRise hrise).1,
    (ground_clamp_jump.2.2.1 sJump rfl).1,
    ground_clamp_jump.2.2.2.1 sAir rfl,
    (ground_clamp_jump.2.2.2.2 (1 / 10) 0 (-1) sJump (by norm_num) (by norm_num) rfl hy12
      rfl rfl rfl).2⟩

/-- Claim C7 counterexample: the delayed reset repositions the player at
y = height(0,0) + 0.1, not exactly the ground height claimed. -/
theorem reset_position_counterexample :
    (resetGame rnd0 initialState).player.pos.y ≠ getTerrainHeight 0 0 := by
  show getTerrainHeight 0 0 + 0.1 ≠ getTerrainHeight 0 0
  rw [getTerrainHeight_zero_zero]
  norm_num

/-- Claim C7 amended: damage floors health at 0 (never negative); the
delayed respawn timer is scheduled exactly when the floored health is 0;
the reset restores health to maxHealth (100), repositions the player at
the world origin 0.1 above ground height — position (0, height(0,0)+0.1,
0), not exactly (0, height(0,0), 0) — zeroes velocity, resets the look
rotation, and replaces the live enemy collection with a fresh initial
spawn of 30. -/
theorem damage_and_reset :
    (∀ (amount : ℤ) (s : GameState),
      (applyDamageToPlayer amount s).1.hp = max 0 (s.hp - amount)) ∧
    (∀ (amount : ℤ) (s : GameState),
      ((applyDamageToPlayer amount s).2 = true ↔ s.hp - amount ≤ 0)) ∧
    (∀ (rnd : ℕ → EnemyRand) (s : GameState),
      (resetGame rnd s).hp = maxHp ∧
      (resetGame rnd s).player.pos = ⟨0, getTerrainHeight 0 0 + 0.1, 0⟩ ∧
      (resetGame rnd s).player.vel = ⟨0, 0, 0⟩ ∧
      (resetGame rnd s).cameraRot = ⟨0, 0, 0⟩ ∧
      (resetGame rnd s).enemies.length = INITIAL_ENEMY_COUNT) := by
  refine ⟨fun amount s => rfl, ?_, ?_⟩
  · intro amount s
    simp only [applyDamageToPlayer, decide_eq_true_eq]
    omega
  · intro rnd s
    refine ⟨rfl, rfl, rfl, rfl, ?_⟩
    show (spawnEnemies rnd INITIAL_ENEMY_COUNT []).length = INITIAL_ENEMY_COUNT
    rw [spawnEnemies_length]
    decide

/-- Length scales with the absolute value of a scalar factor. -/
theorem vlen_smul (c : ℝ) (v : Vec3) : vlen (vsmul c v) = |c| * vlen v := by
  simp only [vlen, vsmul]
  rw [show (c * v.x) ^ 2 + (c * v.y) ^ 2 + (c * v.z) ^ 2 =
    c ^ 2 * (v.x ^ 2 + v.y ^ 2 + v.z ^ 2) by ring]
  rw [Real.sqrt_mul (sq_nonneg c), Real.sqrt_sq_eq_abs]

/-- A normalized vector of positive length has length 1. -/
theorem vlen_vnormalize (v : Vec3) (h : 0 < vlen v) : vlen (vnormalize v) = 1 := by
  unfold vnormalize
  rw [vlen_smul, abs_of_nonneg (one_div_pos.mpr h).le, one_div,
    inv_mul_cancel₀ (ne_of_gt h)]

/-- Subtracting the base point of a translation recovers the offset. -/
theorem vsub_vadd_cancel (a w : Vec3) : vsub (vadd a w) a = w := by
  ext <;> simp [vsub, vadd]

/-- The length of a vector supported on the x axis. -/
theorem vlen_xaxis (a : ℝ) : vlen ⟨a, 0, 0⟩ = |a| := by
  simp only [vlen]
  rw [show a ^ 2 + (0 : ℝ) ^ 2 + (0 : ℝ) ^ 2 = a ^ 2 by ring, Real.sqrt_sq_eq_abs]

/-- Claim C8 amended: for a live enemy within the melee threshold
(enemy radius + player radius + 0.15): when its distance to the player
exceeds the 0.001 epsilon — not merely when it is nonzero, as the claim
states — it is repositioned exactly at the threshold distance from the
player along the line from player to enemy; at distance at most 0.001
(including exactly 0) no reposition occurs; if the decayed attack cooldown
is ≤ 0 the player takes 10 damage and the cooldown resets to the enemy
attack interval, otherwise no damage and the decayed cooldown is kept.
An enemy farther than the threshold instead moves straight toward the
player by speed·Δt. -/
theorem enemy_melee_step :
    (∀ (delta : ℝ) (pp : Vec3) (e : Enemy), 0 < e.radius →
      vlen (vsub pp e.pos) ≤ e.radius + PLAYER_RADIUS + ENEMY_MIN_DISTANCE_BUFFER →
      0.001 < vlen (vsub pp e.pos) →
      vlen (vsub (enemyAIStep delta pp e).1.pos pp) =
        e.radius + PLAYER_RADIUS + ENEMY_MIN_DISTANCE_BUFFER ∧
      vsub (enemyAIStep delta pp e).1.pos pp =
        vsmul ((e.radius + PLAYER_RADIUS + ENEMY_MIN_DISTANCE_BUFFER) / vlen (vsub pp e.pos))
          (vsub e.pos pp)) ∧
    (∀ (delta : ℝ) (pp : Vec3) (e : Enemy), 0 < e.radius →
      vlen (vsub pp e.pos) ≤ e.radius + PLAYER_RADIUS + ENEMY_MIN_DISTANCE_BUFFER →
      max 0 (e.attackCooldown - delta) ≤ 0 →
      (enemyAIStep delta pp e).2 = PLAYER_ATTACK_DAMAGE ∧
      (enemyAIStep delta pp e).1.attackCooldown = e.attackRate) ∧
    (∀ (delta : ℝ) (pp : Vec3) (e : Enemy), 0 < e.radius →
      vlen (vsub pp e.pos) ≤ e.radius + PLAYER_RADIUS + ENEMY_MIN_DISTANCE_BUFFER →
      0 < max 0 (e.attackCooldown - delta) →
      (enemyAIStep delta pp e).2 = 0 ∧
      (enemyAIStep delta pp e).1.attackCooldown = max 0 (e.attackCooldown - delta)) ∧
    (∀ (delta : ℝ) (pp : Vec3) (e : Enemy), 0 < e.radius →
      vlen (vsub pp e.pos) ≤ 0.001 →
      (enemyAIStep delta pp e).1.pos = e.pos) ∧
    (∀ (delta : ℝ) (pp : Vec3) (e : Enemy), 0 < e.radius → 0 ≤ delta → 0 ≤ e.speed →
      e.radius + PLAYER_RADIUS + ENEMY_MIN_DISTANCE_BUFFER < vlen (vsub pp e.pos) →
      vlen (vsub (enemyAIStep delta pp e).1.pos e.pos) = e.speed * delta ∧
      vsub (enemyAIStep delta pp e).1.pos e.pos =
        vsmul (e.speed * delta / vlen (vsub pp e.pos)) (vsub pp e.pos) ∧
      (enemyAIStep delta pp e).2 = 0) := by
  have hbuf : (0 : ℝ) < PLAYER_RADIUS + ENEMY_MIN_DISTANCE_BUFFER := by
    norm_num [PLAYER_RADIUS, ENEMY_MIN_DISTANCE_BUFFER]
  refine ⟨?_, ?_, ?_, ?_, ?_⟩
  · intro delta pp e hr hnear hd2
    have hif : (if e.radius = 0 then ENEMY_RADIUS else e.radius) = e.radius := if_neg hr.ne'
    have hd0 : 0 < vlen (vsub pp e.pos) := lt_trans (by norm_num) hd2
    have hminnn : (0 : ℝ) ≤ e.radius + PLAYER_RADIUS + ENEMY_MIN_DISTANCE_BUFFER := by
      linarith
    have hpos : (enemyAIStep delta pp e).1.pos =
        vadd pp (vsmul (-(e.radius + PLAYER_RADIUS + ENEMY_MIN_DISTANCE_BUFFER))
          (vnormalize (vsub pp e.pos))) := by
      simp only [enemyAIStep, hif]
      rw [if_neg (not_lt.mpr hnear), if_pos hd2]
      split <;> rfl
    constructor
    · rw [hpos, vsub_vadd_cancel, vlen_smul, vlen_vnormalize _ hd0, abs_neg,
        abs_of_nonneg hminnn, mul_one]
    · rw [hpos, vsub_vadd_cancel]
      ext <;> simp only [vsmul, vnormalize, vsub] <;> ring
  · intro delta pp e hr hnear hcd
    have hif : (if e.radius = 0 then ENEMY_RADIUS else e.radius) = e.radius := if_neg hr.ne'
    simp only [enemyAIStep, hif]
    rw [if_neg (not_lt.mpr hnear), if_pos hcd]
    exact ⟨rfl, rfl⟩
  · intro delta pp e hr hnear hcd
    have hif : (if e.radius = 0 then ENEMY_RADIUS else e.radius) = e.radius := if_neg hr.ne'
    simp only [enemyAIStep, hif]
    rw [if_neg (not_lt.mpr hnear), if_neg (not_le.mpr hcd)]
    exact ⟨rfl, rfl⟩
  · intro delta pp e hr hd
    have hif : (if e.radius = 0 then ENEMY_RADIUS else e.radius) = e.radius := if_neg hr.ne'
    have hlt : (0.001 : ℝ) < e.radius + PLAYER_RADIUS + ENEMY_MIN_DISTANCE_BUFFER := by
      have h1 : (0.001 : ℝ) < PLAYER_RADIUS + ENEMY_MIN_DISTANCE_BUFFER := by
        norm_num [PLAYER_RADIUS, ENEMY_MIN_DISTANCE_BUFFER]
      linarith
    simp only [enemyAIStep, hif]
    rw [if_neg (not_lt.mpr (hd.trans hlt.le)), if_neg (not_lt.mpr hd)]
    split <;> rfl
  · intro delta pp e hr hdelta hs hfar
    have hif : (if e.radius = 0 then ENEMY_RADIUS else e.radius) = e.radius := if_neg hr.ne'
    have hd0 : 0 < vlen (vsub pp e.pos) := by linarith
    have hpos : (enemyAIStep delta pp e).1.pos =
        vadd e.pos (vsmul (e.speed * delta) (vnormalize (vsub pp e.pos))) := by
      simp only [enemyAIStep, hif]
      rw [if_pos hfar]
    have hdmg : (enemyAIStep delta pp e).2 = 0 := by
      simp only [enemyAIStep, hif]
      rw [if_pos hfar]
    refine ⟨?_, ?_, hdmg⟩
    · rw [hpos, vsub_vadd_cancel, vlen_smul, vlen_vnormalize _ hd0,
        abs_of_nonneg (mul_nonneg hs hdelta), mul_one]
    · rw [hpos, vsub_vadd_cancel]
      ext <;> simp only [vsmul, vnormalize] <;> ring

/-- Concrete enemy 1/2000 from the player, inside the reposition
epsilon. -/
noncomputable def eNear : Enemy :=
  { pos := ⟨1 / 2000, 0, 0⟩, speed := 6, hp := 100, attackCooldown := 5, attackRate := 1,
    radius := ENEMY_RADIUS }

/-- Claim C8 counterexample: an enemy at the nonzero distance 1/2000 from
the player — within the melee threshold — is left in place by the AI step
because the reposition is guarded by `dist > 0.001`, not `dist > 0`, so it
does not end up at the threshold distance the claim requires. -/
theorem enemy_melee_counterexample :
    vlen (vsub ⟨0, 0, 0⟩ eNear.pos) = 1 / 2000 ∧
    (0 : ℝ) < 1 / 2000 ∧
    (1 / 2000 : ℝ) ≤ eNear.radius + PLAYER_RADIUS + ENEMY_MIN_DISTANCE_BUFFER ∧
    (enemyAIStep (1 / 100) ⟨0, 0, 0⟩ eNear).1.pos = eNear.pos ∧
    vlen (vsub (enemyAIStep (1 / 100) ⟨0, 0, 0⟩ eNear).1.pos ⟨0, 0, 0⟩) ≠
      eNear.radius + PLAYER_RADIUS + ENEMY_MIN_DISTANCE_BUFFER := by
  have hsub : vsub ⟨0, 0, 0⟩ eNear.pos = (⟨-(1 / 2000), 0, 0⟩ : Vec3) := by
    show vsub ⟨0, 0, 0⟩ ⟨1 / 2000, 0, 0⟩ = _
    simp [vsub]
  have hdist : vlen (vsub ⟨0, 0, 0⟩ eNear.pos) = 1 / 2000 := by
    rw [hsub, vlen_xaxis]
    norm_num
  have hc1 : ¬((if eNear.radius = 0 then ENEMY_RADIUS else eNear.radius) +
      PLAYER_RADIUS + ENEMY_MIN_DISTANCE_BUFFER < (1 / 2000 : ℝ)) := by
    rw [if_neg (by norm_num [eNear, ENEMY_RADIUS] : ¬(eNear.radius = 0))]
    norm_num [eNear, ENEMY_RADIUS, PLAYER_RADIUS, ENEMY_MIN_DISTANCE_BUFFER]
  have hc2 : ¬((0.001 : ℝ) < 1 / 2000) := by norm_num
  have hpos : (enemyAIStep (1 / 100) ⟨0, 0, 0⟩ eNear).1.pos = eNear.pos := by
    simp only [enemyAIStep, hdist]
    rw [if_neg hc1, if_neg hc2]
    split <;> rfl
  have hback : vsub eNear.pos ⟨0, 0, 0⟩ = (⟨1 / 2000, 0, 0⟩ : Vec3) := by
    show vsub ⟨1 / 2000, 0, 0⟩ ⟨0, 0, 0⟩ = _
    simp [vsub]
  refine ⟨hdist, by norm_num, ?_, hpos, ?_⟩
  · norm_num [eNear, ENEMY_RADIUS, PLAYER_RADIUS, ENEMY_MIN_DISTANCE_BUFFER]
  · rw [hpos, hback, vlen_xaxis, abs_of_pos (by norm_num : (0 : ℝ) < 1 / 2000)]
    norm_num [eNear, ENEMY_RADIUS, PLAYER_RADIUS, ENEMY_MIN_DISTANCE_BUFFER]

/-- Concrete melee-range enemy with an elapsed attack cooldown. -/
noncomputable def eMelee : Enemy :=
  { pos := ⟨1, 0, 0⟩, speed := 6, hp := 100, attackCooldown := 0, attackRate := 2,
    radius := ENEMY_RADIUS }

/-- Concrete melee-range enemy with a pending attack cooldown. -/
noncomputable def eMeleeCd : Enemy :=
  { pos := ⟨1, 0, 0⟩, speed := 6, hp := 100, attackCooldown := 5, attackRate := 2,
    radius := ENEMY_RADIUS }

/-- Concrete out-of-range enemy. -/
noncomputable def eFar : Enemy :=
  { pos := ⟨5, 0, 0⟩, speed := 6, hp := 100, attackCooldown := 5, attackRate := 2,
    radius := ENEMY_RADIUS }

/-- Claim C8 witness: concrete melee reposition, attack, pending-cooldown,
epsilon no-op and pursuit cases. -/
theorem enemy_melee_step_witness :
    vlen (vsub (enemyAIStep (1 / 100) ⟨0, 0, 0⟩ eMeleeCd).1.pos ⟨0, 0, 0⟩) =
      eMeleeCd.radius + PLAYER_RADIUS + ENEMY_MIN_DISTANCE_BUFFER ∧
    (enemyAIStep (1 / 100) ⟨0, 0, 0⟩ eMelee).2 = PLAYER_ATTACK_DAMAGE ∧
    (enemyAIStep (1 / 100) ⟨0, 0, 0⟩ eMelee).1.attackCooldown = eMelee.attackRate ∧
    (enemyAIStep (1 / 100) ⟨0, 0, 0⟩ eMeleeCd).2 = 0 ∧
    (enemyAIStep (1 / 100) ⟨0, 0, 0⟩ eNear).1.pos = eNear.pos ∧
    vlen (vsub (enemyAIStep (1 / 10) ⟨0, 0, 0⟩ eFar).1.pos eFar.pos) =
      eFar.speed * (1 / 10) := by
  have hd1 : vlen (vsub (⟨0, 0, 0⟩ : Vec3) (⟨1, 0, 0⟩ : Vec3)) = 1 := by
    have hsub : vsub (⟨0, 0, 0⟩ : Vec3) (⟨1, 0, 0⟩ : Vec3) = (⟨-1, 0, 0⟩ : Vec3) := by
      simp [vsub]
    rw [hsub, vlen_xaxis]
    norm_num
  have hd5 : vlen (vsub (⟨0, 0, 0⟩ : Vec3) (⟨5, 0, 0⟩ : Vec3)) = 5 := by
    have hsub : vsub (⟨0, 0, 0⟩ : Vec3) (⟨5, 0, 0⟩ : Vec3) = (⟨-5, 0, 0⟩ : Vec3) := by
      simp [vsub]
    rw [hsub, vlen_xaxis]
    norm_num
  have hr : (0 : ℝ) < ENEMY_RADIUS := by norm_num [ENEMY_RADIUS]
  have hnear1 : vlen (vsub (⟨0, 0, 0⟩ : Vec3) eMeleeCd.pos) ≤
      eMeleeCd.radius + PLAYER_RADIUS + ENEMY_MIN_DISTANCE_BUFFER := by
    show vlen (vsub (⟨0, 0, 0⟩ : Vec3) (⟨1, 0, 0⟩ : Vec3)) ≤
      ENEMY_RADIUS + PLAYER_RADIUS + ENEMY_MIN_DISTANCE_BUFFER
    rw [hd1]
    norm_num [ENEMY_RADIUS, PLAYER_RADIUS, ENEMY_MIN_DISTANCE_BUFFER]
  have hnear2 : vlen (vsub (⟨0, 0, 0⟩ : Vec3) eMelee.pos) ≤
      eMelee.radius + PLAYER_RADIUS + ENEMY_MIN_DISTANCE_BUFFER := hnear1
  have heps : (0.001 : ℝ) < vlen (vsub (⟨0, 0, 0⟩ : Vec3) eMeleeCd.pos) := by
    show (0.001 : ℝ) < vlen (vsub (⟨0, 0, 0⟩ : Vec3) (⟨1, 0, 0⟩ : Vec3))
    rw [hd1]
    norm_num
  have hcd0 : max 0 (eMelee.attackCooldown - 1 / 100) ≤ 0 := by
    show max (0 : ℝ) (0 - 1 / 100) ≤ 0
    rw [max_le_iff]
    norm_num
  have hcd5 : (0 : ℝ) < max 0 (eMeleeCd.attackCooldown - 1 / 100) := by
    show (0 : ℝ) < max 0 (5 - 1 / 100)
    rw [lt_max_iff]
    right
    norm_num
  have hnearN : vlen (vsub (⟨0, 0, 0⟩ : Vec3) eNear.pos) ≤ 0.001 := by
    have hsub : vsub (⟨0, 0, 0⟩ : Vec3) eNear.pos = (⟨-(1 / 2000), 0, 0⟩ : Vec3) := by
      show vsub (⟨0, 0, 0⟩ : Vec3) (⟨1 / 2000, 0, 0⟩ : Vec3) = _
      simp [vsub]
    rw [hsub, vlen_xaxis, abs_neg, abs_of_pos (by norm_num : (0 : ℝ) < 1 / 2000)]
    norm_num
  have hfar : eFar.radius + PLAYER_RADIUS + ENEMY_MIN_DISTANCE_BUFFER <
      vlen (vsub (⟨0, 0, 0⟩ : Vec3) eFar.pos) := by
    show ENEMY_RADIUS + PLAYER_RADIUS + ENEMY_MIN_DISTANCE_BUFFER <
      vlen (vsub (⟨0, 0, 0⟩ : Vec3) (⟨5, 0, 0⟩ : Vec3))
    rw [hd5]
    norm_num [ENEMY_RADIUS, PLAYER_RADIUS, ENEMY_MIN_DISTANCE_BUFFER]
  exact ⟨(enemy_melee_step.1 (1 / 100) ⟨0, 0, 0⟩ eMeleeCd hr hnear1 heps).1,
    (enemy_melee_step.2.1 (1 / 100) ⟨0, 0, 0⟩ eMelee hr hnear2 hcd0).1,
    (enemy_melee_step.2.1 (1 / 100) ⟨0, 0, 0⟩ eMelee hr hnear2 hcd0).2,
    (enemy_melee_step.2.2.1 (1 / 100) ⟨0, 0, 0⟩ eMeleeCd hr hnear1 hcd5).1,
    enemy_melee_step.2.2.2.1 (1 / 100) ⟨0, 0, 0⟩ eNear hr hnearN,
    (enemy_melee_step.2.2.2.2 (1 / 10) ⟨0, 0, 0⟩ eFar hr (by norm_num)
      (by norm_num [eFar]) hfar).1⟩

end Etheria
